import Mathlib

/-!
Verification development for the aws-account-operator account lifecycle core.

Shallow embedding of:
- the AWS SDK v2 STS credential chain (src/unnamed/part_000, package sts):
  `GetSTSCredentialsV2` and `HandleRoleAssumptionV2`;
- the SDK v2 client wrapper `BatchDeleteBucketObjects` (src/unnamed/part_000,
  package awsclient);
- the account reconciler `AccountReconcilerV2.Reconcile`
  (src/controllers/account/account_controller_v2.go), covering the control flow
  up to the region initialization block;
- the account claim pool matcher and claim deletion flow, whose implementation
  is not under src/ (only its tests are); those parts are modelled from the
  specification, as marked in their doc comments.

External collaborators (the AWS SDK itself, the Kubernetes control plane,
config loading) are represented by oracle parameters: a call sequence
`Nat → Except E O` for the assume role endpoint, booleans for control plane
update success, and so on.
-/

set_option maxRecDepth 4096

/-! ## Data model -/

/-- Legal entity identifier (name + external id), used to prevent cross
tenant reuse (api/v1alpha1 LegalEntity). -/
structure LegalEntity where
  entityName : String
  entityId : String
deriving DecidableEq, Repr

/-- One entry of the account condition history: a typed reason plus message
(api/v1alpha1 AccountCondition, timestamps omitted). -/
structure AccountCondition where
  ctype : String
  reason : String
  message : String
deriving DecidableEq, Repr

/-- Account spec fields used by the reconcilers (api/v1alpha1 AccountSpec). -/
structure AccountSpec where
  byoc : Bool
  manualSTSMode : Bool
  awsAccountID : String
  claimLink : String
  claimLinkNamespace : String
  legalEntity : LegalEntity
  accountPool : String
deriving DecidableEq, Repr

/-- Account status fields used by the reconcilers (api/v1alpha1
AccountStatus). -/
structure AccountStatus where
  state : String
  claimed : Bool
  reused : Bool
  supportCaseID : String
  conditions : List AccountCondition
deriving DecidableEq, Repr

/-- An Account custom resource: metadata (name, finalizers, deletion
timestamp presence) plus spec and status. -/
structure Account where
  accountName : String
  finalizers : List String
  deletionTimestampSet : Bool
  spec : AccountSpec
  status : AccountStatus
deriving DecidableEq, Repr

/-- An AccountClaim custom resource (api/v1alpha1 AccountClaim), restricted
to the fields the pool matcher and the deletion flow read. -/
structure AccountClaim where
  claimName : String
  claimNamespace : String
  finalizers : List String
  deletionTimestampSet : Bool
  legalEntity : LegalEntity
  accountPool : String
  accountLink : String
  byoc : Bool
deriving DecidableEq, Repr

/-- State string constants from account_controller_v2.go lines 61 to 77. -/
def AccountPendingV2 : String := "Pending"

/-- State constant: account is being created. -/
def AccountCreatingV2 : String := "Creating"

/-- State constant: account creation has failed. -/
def AccountFailedV2 : String := "Failed"

/-- State constant: region initialization has been kicked off. -/
def AccountInitializingRegionsV2 : String := "InitializingRegions"

/-- State constant: account creation is ready. -/
def AccountReadyV2 : String := "Ready"

/-- State constant: verification of AWS limits and support is pending. -/
def AccountPendingVerificationV2 : String := "PendingVerification"

/-- The account finalizer name (awsv1alpha1.AccountFinalizer, not under
src/; the exact string is irrelevant to every claim, only identity). -/
def accountFinalizerName : String := "finalizer.aws.managed.openshift.io"

/-- The account claim finalizer name (accountClaimFinalizer of the
accountclaim package, referenced by its tests under src/). -/
def accountClaimFinalizerName : String := "finalizer.aws.managed.openshift.io"

/-! ## Account helper predicates

Modelled from the spec: the helper methods on Account (IsFailed, IsCreating,
IsPendingDeletion, ...) live in api/v1alpha1/account_types.go, which is not
under src/; the spec section 3 fixes their meaning (State is one of the
listed strings, Claimed and Reused are booleans, claim link emptiness). -/

/-- Modelled from the spec: an account is failed when its status state is the
Failed state string. -/
def Account.IsFailed (a : Account) : Prop := a.status.state = AccountFailedV2

instance (a : Account) : Decidable a.IsFailed := by unfold Account.IsFailed; infer_instance

/-- Modelled from the spec: an account is creating when its status state is
the Creating state string. -/
def Account.IsCreating (a : Account) : Prop := a.status.state = AccountCreatingV2

instance (a : Account) : Decidable a.IsCreating := by unfold Account.IsCreating; infer_instance

/-- Modelled from the spec: pending deletion means the deletion timestamp is
set on the object. -/
def Account.IsPendingDeletion (a : Account) : Prop := a.deletionTimestampSet = true

instance (a : Account) : Decidable a.IsPendingDeletion := by
  unfold Account.IsPendingDeletion; infer_instance

/-- Modelled from the spec: BYOC classification is the spec flag. -/
def Account.IsBYOC (a : Account) : Prop := a.spec.byoc = true

instance (a : Account) : Decidable a.IsBYOC := by unfold Account.IsBYOC; infer_instance

/-- Modelled from the spec: claimed is the status flag. -/
def Account.IsClaimed (a : Account) : Prop := a.status.claimed = true

instance (a : Account) : Decidable a.IsClaimed := by unfold Account.IsClaimed; infer_instance

/-- Modelled from the spec: an account has a state when the state string is
nonempty. -/
def Account.HasState (a : Account) : Prop := a.status.state ≠ ""

instance (a : Account) : Decidable a.HasState := by unfold Account.HasState; infer_instance

/-- Modelled from the spec: the provider account id is assigned once creation
succeeds, empty before. -/
def Account.HasAwsAccountID (a : Account) : Prop := a.spec.awsAccountID ≠ ""

instance (a : Account) : Decidable a.HasAwsAccountID := by
  unfold Account.HasAwsAccountID; infer_instance

/-- Modelled from the spec: unclaimed with no state. -/
def Account.IsUnclaimedAndHasNoState (a : Account) : Prop :=
  ¬a.HasState ∧ ¬a.IsClaimed

instance (a : Account) : Decidable a.IsUnclaimedAndHasNoState := by
  unfold Account.IsUnclaimedAndHasNoState; infer_instance

/-- Modelled from the spec: ready, unclaimed, and carrying a claim link. -/
def Account.IsReadyUnclaimedAndHasClaimLink (a : Account) : Prop :=
  a.status.state = AccountReadyV2 ∧ ¬a.IsClaimed ∧ a.spec.claimLink ≠ ""

instance (a : Account) : Decidable a.IsReadyUnclaimedAndHasClaimLink := by
  unfold Account.IsReadyUnclaimedAndHasClaimLink; infer_instance

/-- Modelled from the spec: pending verification state check. -/
def Account.IsPendingVerification (a : Account) : Prop :=
  a.status.state = AccountPendingVerificationV2

instance (a : Account) : Decidable a.IsPendingVerification := by
  unfold Account.IsPendingVerification; infer_instance

/-- Modelled from the spec: initializing regions state check. -/
def Account.IsInitializingRegions (a : Account) : Prop :=
  a.status.state = AccountInitializingRegionsV2

instance (a : Account) : Decidable a.IsInitializingRegions := by
  unfold Account.IsInitializingRegions; infer_instance

/-! ## STS credential chain (src/unnamed/part_000, package sts) -/

/-- The assume role request built by GetSTSCredentialsV2 (part_000 lines
609 to 619): a fixed 3600 second session duration, the role ARN, the session
name, and the external id only when nonempty. -/
structure AssumeRoleInputV2 where
  durationSeconds : Int
  roleArn : String
  roleSessionName : String
  externalId : Option String
deriving DecidableEq, Repr

/-- Builds the AssumeRoleInput exactly as GetSTSCredentialsV2 does: duration
3600, ExternalId set only when the externalID argument is nonempty. -/
def mkAssumeRoleInputV2 (roleArn externalID roleSessionName : String) : AssumeRoleInputV2 :=
  { durationSeconds := 3600
    roleArn := roleArn
    roleSessionName := roleSessionName
    externalId := if externalID ≠ "" then some externalID else none }

/-- The retry loop of GetSTSCredentialsV2 (part_000 lines 621 to 638):
each iteration sleeps 500 ms then issues the call; a success breaks out, and
the loop runs at most the given fuel plus one attempts, the final attempt
returning whatever it produced. The second component records the sleep
durations in milliseconds, one 500 per attempt made. The call sequence
abstracts the AWS client AssumeRole endpoint, indexed by attempt. -/
def stsRetryLoop {E O : Type} (call : Nat → Except E O) (i : Nat) :
    Nat → Except E O × List Nat
  | 0 => (call i, [500])
  | fuel + 1 =>
    match call i with
    | .ok o => (.ok o, [500])
    | .error _ =>
      let r := stsRetryLoop call (i + 1) fuel
      (r.1, 500 :: r.2)

/-- GetSTSCredentialsV2 (part_000 lines 600 to 640): builds the assume role
input with a 3600 second duration and runs the 100 attempt retry loop over
the AssumeRole endpoint. Returns the result together with the sleep trace. -/
def GetSTSCredentialsV2 {E O : Type}
    (assumeRole : AssumeRoleInputV2 → Nat → Except E O)
    (roleArn externalID roleSessionName : String) : Except E O × List Nat :=
  stsRetryLoop (assumeRole (mkAssumeRoleInputV2 roleArn externalID roleSessionName)) 0 99

/-- The assumed role credentials consumed by HandleRoleAssumptionV2: the
assumed role id used for the eventual consistency check, and the key
material. -/
structure AssumeRoleCreds where
  assumedRoleId : String
  accessKeyId : String
  secretAccessKey : String
  sessionToken : String
deriving DecidableEq, Repr

/-- The role assumption loop of HandleRoleAssumptionV2 (part_000 lines
675 to 694). Each iteration issues a whole assume role call (abstracted as
`call i`, standing for GetSTSCredentialsV2); an error returns immediately.
On success, when ccsRoleID is nonempty and the regex match of ccsRoleID
against the assumed role id fails (matchSubstringV2, part_000 lines 595 to
598, with the Go regexp engine abstracted as `rmatch` and its error
discarded as in the source), the loop sleeps for the attempt index in
seconds and retries; otherwise it breaks. When fuel runs out the loop exits
with the credentials of the last attempt. The result pairs the credentials
the code continues with (none only if no attempt ran) with the sleep trace
in seconds. -/
def handleRoleLoop {E : Type} (call : Nat → Except E AssumeRoleCreds)
    (rmatch : String → String → Bool) (ccsRoleID : String)
    (prev : Option AssumeRoleCreds) (i : Nat) :
    Nat → Except E (Option AssumeRoleCreds × List Nat)
  | 0 => .ok (prev, [])
  | fuel + 1 =>
    match call i with
    | .error e => .error e
    | .ok c =>
      if ccsRoleID ≠ "" ∧ rmatch ccsRoleID c.assumedRoleId = false then
        match handleRoleLoop call rmatch ccsRoleID (some c) (i + 1) fuel with
        | .error e => .error e
        | .ok (r, sleeps) => .ok (r, i :: sleeps)
      else .ok (some c, [])

/-- HandleRoleAssumptionV2 (part_000 lines 654 to 694), restricted to its
role assumption loop: ten attempts starting with no credentials. -/
def HandleRoleAssumptionV2 {E : Type} (call : Nat → Except E AssumeRoleCreds)
    (rmatch : String → String → Bool) (ccsRoleID : String) :
    Except E (Option AssumeRoleCreds × List Nat) :=
  handleRoleLoop call rmatch ccsRoleID none 0 10

/-! ## SDK v2 client wrapper (src/unnamed/part_000, package awsclient) -/

/-- BatchDeleteBucketObjects of the SDK v2 client (part_000 lines 465 to
469): a placeholder that unconditionally returns an error. -/
def BatchDeleteBucketObjects (bucketName : Option String) : Except String Unit :=
  .error "BatchDeleteBucketObjects not implemented for AWS SDK v2"

/-! ## Account reconciler (src/controllers/account/account_controller_v2.go) -/

/-- Modelled from the spec: utils.SetAccountStatus is repository code not
under src/. Its argument order (account, message, ctype, state) is pinned by
the unambiguous call sites in src (account_controller_v2.go line 276 passes
the human message first and the state constant last, likewise line 521).
Following the spec, it records one typed condition on the condition history
(with the state argument in the reason slot, the upstream convention) and
sets the status state to the state argument. -/
def SetAccountStatus (a : Account) (message ctype state : String) : Account :=
  { a with status :=
      { a.status with
        state := state
        conditions := a.status.conditions ++ [⟨ctype, state, message⟩] } }

/-- setAccountFailedV2 (account_controller_v2.go lines 436 to 444),
translated as written: it forwards (state, ctype, message) to
SetAccountStatus — so against the (message, ctype, state) signature the
state and message arguments arrive swapped — and its reason argument is not
forwarded anywhere. The status update call is handled by the caller via the
environment. -/
def setAccountFailedV2 (a : Account) (ctype reason message state : String) : Account :=
  SetAccountStatus a state ctype message

/-- Modelled from the spec: the configured wait threshold utils.WaitTime
(in minutes) is not under src/; the concrete value is irrelevant to every
claim, only the message built from it. -/
def waitTime : Nat := 25

/-- The error message built at account_controller_v2.go line 250. -/
def creationTimeoutMessage : String :=
  "Creation pending for longer than " ++ toString waitTime ++ " minutes"

deriving instance DecidableEq for Except

/-- Environment of one account reconciliation: outcomes of the external
collaborators (config map fetch, client building, control plane updates,
the tracked accounts watcher, fedramp configuration, dev mode detection,
the provider account creation oracle, and the creation condition age
check). -/
structure ReconcileEnv where
  configMapOk : Bool
  setupClientOk : Bool
  updateOk : Bool
  statusUpdateOk : Bool
  accountsCanBeCreated : Bool
  fedramp : Bool
  devModeProduction : Bool
  createAccountResult : Except String String
  olderThanCreatePendTime : Bool
deriving DecidableEq, Repr

/-- How a modelled reconciliation invocation ends. `proceedToInit` marks the
fall through to the opt in region / initialization blocks at line 287 and
beyond, which no claim depends on; `pendingDeletionHandled` likewise marks
the deletion branch at lines 161 to 202. -/
inductive ReconcileOutcome where
  | errored (msg : String)
  | done
  | requeueAfterMinutes (n : Nat)
  | proceedToInit
  | pendingDeletionHandled
deriving DecidableEq, Repr

/-- Result of one modelled reconciliation: the account object as mutated by
the invocation, the outcome, and the AWS provider API calls issued. -/
structure ReconcileResult where
  account : Account
  outcome : ReconcileOutcome
  providerCalls : List String
deriving DecidableEq, Repr

/-- addFinalizer (account_controller_v2.go lines 383 to 396): appends the
account finalizer when missing and persists via Update; returns the mutated
account and the update error if any. -/
def addFinalizerStep (env : ReconcileEnv) (a : Account) : Account × Option String :=
  if accountFinalizerName ∈ a.finalizers then (a, none)
  else
    let a2 := { a with finalizers := a.finalizers ++ [accountFinalizerName] }
    if env.updateOk then (a2, none) else (a2, some "Failed to update Account with finalizer")

/-- BuildAccountV2 plus CreateAccountV2 (account_controller_v2.go lines 512
to 618), with the provider create plus status poll abstracted as the
environment oracle: on a failed create classified as
ErrAwsFailedCreateAccount the account is set to Failed (line 521) before the
error is returned; other errors leave the account untouched. One
CreateAccount provider call is always recorded. -/
def buildAccountV2 (env : ReconcileEnv) (a : Account) :
    Account × Except String String × List String :=
  match env.createAccountResult with
  | .ok awsID => (a, .ok awsID, ["CreateAccount"])
  | .error e =>
    if e = "ErrAwsFailedCreateAccount" then
      (SetAccountStatus a "Failed to create AWS Account" "AccountCreationFailed" AccountFailedV2,
        .error e, ["CreateAccount"])
    else (a, .error e, ["CreateAccount"])

/-- nonCCSAssignAccountIDV2 (account_controller_v2.go lines 452 to 491):
in production mode builds the account via the provider, otherwise uses the
fixed development account id; sets the Creating status (line 469, arguments
(message, ctype, state) all the Creating constant), persists status, in
development mode sets the support case id, stores the aws account id on the
spec, tags the account (errors only logged), and persists the spec. -/
def nonCCSAssignAccountIDV2 (env : ReconcileEnv) (a : Account) :
    Account × Option String × List String :=
  let built :=
    if env.devModeProduction then buildAccountV2 env a
    else (a, .ok "123456789012", [])
  match built with
  | (a1, .error e, calls) => (a1, some e, calls)
  | (a1, .ok awsID, calls) =>
    let a2 := SetAccountStatus a1 AccountCreatingV2 "AccountCreating" AccountCreatingV2
    if env.statusUpdateOk = false then (a2, some "failed updating account status", calls)
    else
      let a3 :=
        if env.devModeProduction = false then
          { a2 with status := { a2.status with supportCaseID := "11111111" } }
        else a2
      let a4 := { a3 with spec := { a3.spec with awsAccountID := awsID } }
      let calls2 := calls ++ ["TagResource"]
      if env.updateOk then (a4, none, calls2)
      else (a4, some "Error updating Account CR", calls2)

/-- Reconcile of AccountReconcilerV2 (account_controller_v2.go lines 109 to
284), translated branch by branch: config map fetch, operator client build,
finalizer addition for non manual STS accounts, the pending deletion branch
(summarized as an outcome, no claim depends on its internals), the Failed
skip, the InitializingRegions branch (its handler in src is a stub returning
success), the BYOC branch (its initializer in src is a stub; it sets the
Creating status and persists), and the non BYOC branch: pending verification
(stub handler, returns), ready unclaimed with claim link (stub ClaimAccountV2,
returns), the creation timeout check, and the unclaimed no state path with
the account creation budget gate. Control flow reaching line 287 is the
proceedToInit outcome. -/
def reconcileAccountV2 (env : ReconcileEnv) (acct0 : Account) : ReconcileResult :=
  if env.configMapOk = false then ⟨acct0, .errored "Failed retrieving configmap", []⟩
  else if env.setupClientOk = false then
    ⟨acct0, .errored "failed building operator AWS client", []⟩
  else
    let fin :=
      if acct0.spec.manualSTSMode = false then addFinalizerStep env acct0 else (acct0, none)
    match fin with
    | (acct, some e) => ⟨acct, .errored e, []⟩
    | (acct, none) =>
      if acct.IsPendingDeletion then ⟨acct, .pendingDeletionHandled, []⟩
      else if acct.IsFailed then ⟨acct, .done, []⟩
      else if acct.IsInitializingRegions then ⟨acct, .done, []⟩
      else if acct.IsBYOC then
        let a2 := SetAccountStatus acct AccountCreatingV2 "AccountCreating" AccountCreatingV2
        if env.statusUpdateOk then ⟨a2, .proceedToInit, []⟩
        else ⟨a2, .errored "failed updating account state", []⟩
      else
        if acct.IsPendingVerification then ⟨acct, .done, []⟩
        else if acct.IsReadyUnclaimedAndHasClaimLink then ⟨acct, .done, []⟩
        else if acct.IsCreating ∧ env.olderThanCreatePendTime = true then
          let a2 := setAccountFailedV2 acct "AccountCreationFailed" "CreationTimeout"
            creationTimeoutMessage AccountFailedV2
          if env.statusUpdateOk then ⟨a2, .errored creationTimeoutMessage, []⟩
          else ⟨a2, .errored "failed updating account status", []⟩
        else if acct.IsUnclaimedAndHasNoState then
          if ¬acct.HasAwsAccountID then
            if env.accountsCanBeCreated = false ∧ env.fedramp = false then
              ⟨acct, .requeueAfterMinutes 5, []⟩
            else
              match nonCCSAssignAccountIDV2 env acct with
              | (a2, some e, calls) => ⟨a2, .errored e, calls⟩
              | (a2, none, calls) => ⟨a2, .proceedToInit, calls⟩
          else
            let a2 := SetAccountStatus acct "AWS account already created"
              "AccountCreating" AccountCreatingV2
            if env.statusUpdateOk then ⟨a2, .proceedToInit, []⟩
            else ⟨a2, .errored "failed updating account status", []⟩
        else ⟨acct, .proceedToInit, []⟩

/-! ## Pool matcher (accountclaim controller)

Modelled from the spec: the accountclaim controller implementation is not
under src/ (only its tests,
src/controllers/accountclaim/accountclaim_controller_test.go, are). The
definitions below follow spec section 4.2 step by step and agree with the
expectations of those tests. -/

/-- Modelled from the spec (section 4.2 step 1): the target pool name is the
explicit claim value, else the pool marked default in configuration. -/
def poolTarget (defaultPool claimPool : String) : String :=
  if claimPool ≠ "" then claimPool else defaultPool

/-- Modelled from the spec (section 4.2 step 2): an account pool name matches
the target pool when it equals it — where, for the default pool, an empty
pool name also counts (spec: "pool name equal to target (empty pool name for
default)", and the tests bind blank claims both to accounts with empty pool
name and to accounts carrying the default pool name). -/
def poolNameMatches (defaultPool claimPool acctPool : String) : Prop :=
  if poolTarget defaultPool claimPool = defaultPool then
    acctPool = "" ∨ acctPool = defaultPool
  else acctPool = poolTarget defaultPool claimPool

instance (dp cp ap : String) : Decidable (poolNameMatches dp cp ap) := by
  unfold poolNameMatches; infer_instance

/-- Modelled from the spec (section 4.2 step 2): candidate accounts for a
claim are Ready, unclaimed, and in the target pool. -/
def isCandidate (defaultPool : String) (claim : AccountClaim) (a : Account) : Prop :=
  a.status.state = AccountReadyV2 ∧ a.status.claimed = false ∧
    poolNameMatches defaultPool claim.accountPool a.spec.accountPool

instance (dp : String) (c : AccountClaim) (a : Account) : Decidable (isCandidate dp c a) := by
  unfold isCandidate; infer_instance

/-- Modelled from the spec (section 4.2 step 3): the tie break rank of a
candidate for a claim. Rank 0: already Reused with a matching legal entity
(reclaim continuity); rank 1: Reused; rank 2: never claimed. Lower
outranks higher. -/
def claimRank (claim : AccountClaim) (a : Account) : Nat :=
  if a.status.reused = true ∧ a.spec.legalEntity = claim.legalEntity then 0
  else if a.status.reused = true then 1
  else 2

/-- Modelled from the spec (section 4.2 step 3): selection among candidates
is by minimal rank, first listed among ties (spec: "otherwise
first-listed"). -/
def selectBest (claim : AccountClaim) : List Account → Option Account
  | [] => none
  | a :: rest =>
    match selectBest claim rest with
    | none => some a
    | some b => if claimRank claim b < claimRank claim a then some b else some a

/-- Modelled from the spec (section 4.2): the pool matcher filters the
listed accounts down to candidates and selects the best ranked one. -/
def matchClaim (defaultPool : String) (claim : AccountClaim) (accounts : List Account) :
    Option Account :=
  selectBest claim (accounts.filter (fun a => decide (isCandidate defaultPool claim a)))

/-! ## Claim deletion flow (accountclaim controller)

Modelled from the spec: deletion of a bound claim (spec sections 4.4, 8 and
the deletion tests under src/controllers/accountclaim). -/

/-- Modelled from the spec (section 4.4): one teardown attempt, with each
resource category independent; a flag per category records whether that
category succeeded. The five categories match the five AWS list calls the
deletion tests mock (hosted zones, buckets, vpc endpoint service
configurations, snapshots, volumes). -/
structure TeardownAttempt where
  hostedZonesOk : Bool
  bucketsOk : Bool
  vpcEndpointServiceConfigsOk : Bool
  snapshotsOk : Bool
  volumesOk : Bool
deriving DecidableEq, Repr

/-- The number of failed categories of a teardown attempt. -/
def TeardownAttempt.failureCount (t : TeardownAttempt) : Nat :=
  (if t.hostedZonesOk then 0 else 1) + (if t.bucketsOk then 0 else 1) +
    (if t.vpcEndpointServiceConfigsOk then 0 else 1) +
    (if t.snapshotsOk then 0 else 1) + (if t.volumesOk then 0 else 1)

/-- Modelled from the spec (section 8 deletion flow): resetting a non BYOC
account back to the pool clears the claim link and its namespace, sets
Claimed false, State Ready, and Reused true. -/
def resetAccountForReuse (a : Account) : Account :=
  { a with
    spec := { a.spec with claimLink := "", claimLinkNamespace := "" }
    status := { a.status with claimed := false, state := AccountReadyV2, reused := true } }

/-- Result of one claim deletion reconciliation: the claim as persisted
(finalizer dropped exactly when `claimRemoved`), whether the claim object is
released for physical deletion, the bound account as persisted, and the
surfaced error if any. -/
structure ClaimDeletionOutcome where
  claim : AccountClaim
  claimRemoved : Bool
  account : Account
  err : Option String
deriving DecidableEq, Repr

/-- Modelled from the spec (sections 4.4, 7(d), 8): reconciling a claim
pending deletion bound to a non BYOC account runs one teardown attempt; any
category failure aggregates into an overall failure, the claim keeps its
finalizer and the account is untouched. With zero failures the account is
reset for reuse; a control plane conflict on that update (the
updateConflict oracle) surfaces the error the deletion test expects, again
leaving finalizer and stored account untouched. Only after a clean teardown
and a clean update is the claim finalizer dropped (releasing the claim
object) and the reset account persisted. For BYOC accounts the claim owns
the account, which is deleted with it rather than reset. -/
def reconcileClaimDeletion (claim : AccountClaim) (acct : Account)
    (teardown : TeardownAttempt) (updateConflict : Bool) : ClaimDeletionOutcome :=
  if acct.spec.byoc = false then
    if teardown.failureCount ≠ 0 then
      ⟨claim, false, acct, some "failed to cleanup AWS account"⟩
    else if updateConflict then
      ⟨claim, false, acct, some "account CR modified during reset: Conflict"⟩
    else
      ⟨{ claim with finalizers := claim.finalizers.erase accountClaimFinalizerName },
        true, resetAccountForReuse acct, none⟩
  else
    ⟨{ claim with finalizers := claim.finalizers.erase accountClaimFinalizerName },
      true, acct, none⟩

/-! ## Concrete fixtures used by witnesses and counterexamples -/

/-- Legal entity fixture (the deletion tests use LegalCorp). -/
def witnessLegalEntity1 : LegalEntity := ⟨"test1", "abcdefg"⟩

/-- Second legal entity fixture (the legal entity isolation test). -/
def witnessLegalEntity2 : LegalEntity := ⟨"test2", "hijklmno"⟩

/-- An AssumeRole endpoint that fails twice and then succeeds. -/
def witnessCallSTS : AssumeRoleInputV2 → Nat → Except String Nat :=
  fun _ i => if i < 2 then .error "AccessDenied" else .ok 42

/-- An AssumeRole endpoint that fails on every attempt. -/
def witnessFailSTS : AssumeRoleInputV2 → Nat → Except String Nat :=
  fun _ _ => .error "AccessDenied"

/-- Credentials returned on attempt i of the role assumption loop fixture. -/
def witnessCreds (i : Nat) : AssumeRoleCreds :=
  ⟨"role-" ++ toString i, "ACCESS_KEY", "SECRET_KEY", "SESSION_TOKEN"⟩

/-- A role assumption oracle that always succeeds with attempt indexed
credentials. -/
def witnessCallRole : Nat → Except String AssumeRoleCreds :=
  fun i => .ok (witnessCreds i)

/-- A matcher fixture: only the attempt 2 role id matches. -/
def witnessRegexMatch : String → String → Bool :=
  fun _ role => role == "role-2"

/-- The expected CCS role id fixture (nonempty, so the check is active). -/
def witnessCcsRoleID : String := "BYOCAdminAccess"

/-- Base account spec fixture: non BYOC, not manual STS, everything empty. -/
def baseSpec : AccountSpec := ⟨false, false, "", "", "", witnessLegalEntity1, ""⟩

/-- Base account status fixture: no state, unclaimed, never reused. -/
def baseStatus : AccountStatus := ⟨"", false, false, "", []⟩

/-- An environment in which every external collaborator succeeds. -/
def envAllOk : ReconcileEnv :=
  ⟨true, true, true, true, true, false, true, .ok "999988887777", false⟩

/-- The environment of the creation timeout probe: everything succeeds and
the creation condition is older than the wait threshold. -/
def envTimeoutProbe : ReconcileEnv := { envAllOk with olderThanCreatePendTime := true }

/-- The environment of the budget counterexample: creation budget exhausted
on a fedramp deployment. -/
def envFedrampNoBudget : ReconcileEnv :=
  { envAllOk with accountsCanBeCreated := false, fedramp := true }

/-- The environment of the budget witness: creation budget exhausted on a
regular deployment. -/
def envNoBudget : ReconcileEnv :=
  { envAllOk with accountsCanBeCreated := false, fedramp := false }

/-- A non BYOC account stuck in Creating (finalizer present, conditions
empty, creation condition old per the environment). -/
def acctCreatingOld : Account :=
  ⟨"osd-creds-mgmt-timeout", [accountFinalizerName], false, baseSpec,
    { baseStatus with state := AccountCreatingV2 }⟩

/-- A Failed account that does not carry the account finalizer yet. -/
def acctFailedNoFinalizer : Account :=
  ⟨"osd-creds-mgmt-failed", [], false, baseSpec,
    { baseStatus with state := AccountFailedV2 }⟩

/-- An unclaimed non BYOC account with no state and no AWS account id. -/
def acctBlankUnclaimed : Account :=
  ⟨"osd-creds-mgmt-blank", [accountFinalizerName], false, baseSpec, baseStatus⟩

/-- The default pool name marked default in the test config map. -/
def defaultPoolName : String := "my-default-accountpool"

/-- A blank claim: no pool requested, so it targets the default pool. -/
def blankClaim : AccountClaim :=
  ⟨"default-accountclaim", "aws-account-operator", [accountClaimFinalizerName], false,
    witnessLegalEntity1, "", "", false⟩

/-- A Ready unclaimed account whose pool name is the (nonempty) default pool
name, as in the multiple account pools tests. -/
def acctDefaultNamedPool : Account :=
  ⟨"default-account", [accountFinalizerName], false,
    { baseSpec with accountPool := defaultPoolName },
    { baseStatus with state := AccountReadyV2 }⟩

/-- A claim under the second legal entity, default pool. -/
def claimLE2 : AccountClaim :=
  ⟨"service-quota-accountclaim", "aws-account-operator", [accountClaimFinalizerName], false,
    witnessLegalEntity2, "", "", false⟩

/-- A reused Ready account under the first legal entity, empty pool name. -/
def acctReusedLE1 : Account :=
  ⟨"default-account", [accountFinalizerName], false, baseSpec,
    { baseStatus with state := AccountReadyV2, reused := true }⟩

/-- A reused Ready account under the second legal entity, empty pool name. -/
def acctReusedLE2 : Account :=
  ⟨"account-two", [accountFinalizerName], false,
    { baseSpec with legalEntity := witnessLegalEntity2 },
    { baseStatus with state := AccountReadyV2, reused := true }⟩

/-- A claim pending deletion, bound to the non BYOC account below (the
deletion test fixture). -/
def claimPendingDeletion : AccountClaim :=
  ⟨"testAccountClaim", "myAccountClaimNamespace", [accountClaimFinalizerName], true,
    witnessLegalEntity1, "", "osd-creds-mgmt-aaabbb", false⟩

/-- The non BYOC account bound to the claim pending deletion. -/
def acctBoundNonBYOC : Account :=
  ⟨"osd-creds-mgmt-aaabbb", [accountFinalizerName], false,
    { baseSpec with claimLink := "testAccountClaim",
                    claimLinkNamespace := "myAccountClaimNamespace" },
    { baseStatus with state := AccountReadyV2, claimed := true }⟩

/-- A teardown attempt in which every category succeeded. -/
def teardownClean : TeardownAttempt := ⟨true, true, true, true, true⟩

/-- A teardown attempt in which the hosted zones category failed. -/
def teardownOneFailure : TeardownAttempt := ⟨false, true, true, true, true⟩

/-! ## Lemmas about the STS retry loop -/

/-- If the first k attempts fail and attempt k succeeds (k within the fuel),
the loop returns the success and slept 500 ms before each of the k + 1
attempts made. -/
theorem stsRetryLoop_first_ok {E O : Type} (call : Nat → Except E O) :
    ∀ (k fuel i : Nat) (o : O), k ≤ fuel →
      (∀ j, j < k → ∃ e, call (i + j) = .error e) →
      call (i + k) = .ok o →
      stsRetryLoop call i fuel = (.ok o, List.replicate (k + 1) 500) := by
  intro k
  induction k with
  | zero =>
    intro fuel i o _ _ hok
    simp only [Nat.add_zero] at hok
    cases fuel with
    | zero => simp [stsRetryLoop, hok]
    | succ f => simp [stsRetryLoop, hok]
  | succ k ih =>
    intro fuel i o hle herr hok
    obtain ⟨f, rfl⟩ : ∃ f, fuel = f + 1 := ⟨fuel - 1, by omega⟩
    obtain ⟨e, he⟩ := herr 0 (Nat.succ_pos k)
    simp only [Nat.add_zero] at he
    have hrec := ih f (i + 1) o (by omega)
      (fun j hj => by
        obtain ⟨e2, he2⟩ := herr (j + 1) (by omega)
        exact ⟨e2, by rwa [show i + 1 + j = i + (j + 1) from by omega]⟩)
      (by rwa [show i + 1 + k = i + (k + 1) from by omega])
    simp [stsRetryLoop, he, hrec, List.replicate_succ]

/-- If every attempt the fuel admits fails, the loop returns the error of the
last attempt with a 500 ms sleep recorded before each attempt. -/
theorem stsRetryLoop_all_error {E O : Type} (call : Nat → Except E O) (errf : Nat → E) :
    ∀ (fuel i : Nat), (∀ j, j ≤ fuel → call (i + j) = .error (errf (i + j))) →
      stsRetryLoop call i fuel = (.error (errf (i + fuel)), List.replicate (fuel + 1) 500) := by
  intro fuel
  induction fuel with
  | zero =>
    intro i h
    have h0 := h 0 (Nat.le_refl 0)
    simp only [Nat.add_zero] at h0 ⊢
    simp [stsRetryLoop, h0]
  | succ f ih =>
    intro i h
    have h0 := h 0 (by omega)
    simp only [Nat.add_zero] at h0
    have hrec := ih (i + 1) (fun j hj => by
      have h2 := h (j + 1) (by omega)
      rwa [show i + (j + 1) = i + 1 + j from by omega] at h2)
    rw [show i + 1 + f = i + (f + 1) from by omega] at hrec
    simp [stsRetryLoop, h0, hrec, List.replicate_succ]

/-! ## Lemmas about the role assumption loop -/

/-- If the first k attempts mismatch and attempt k matches (k within the
fuel), the loop returns the credentials of attempt k, and the recorded
sleeps are exactly the attempt indices 0 .. k - 1 shifted by the starting
index. -/
theorem handleRoleLoop_first_match {E : Type} (call : Nat → Except E AssumeRoleCreds)
    (rmatch : String → String → Bool) (ccsRoleID : String) (c : Nat → AssumeRoleCreds) :
    ∀ (k fuel i : Nat) (prev : Option AssumeRoleCreds), k < fuel →
      (∀ j, j ≤ k → call (i + j) = .ok (c (i + j))) →
      (∀ j, j < k → ccsRoleID ≠ "" ∧ rmatch ccsRoleID (c (i + j)).assumedRoleId = false) →
      ¬(ccsRoleID ≠ "" ∧ rmatch ccsRoleID (c (i + k)).assumedRoleId = false) →
      handleRoleLoop call rmatch ccsRoleID prev i fuel =
        .ok (some (c (i + k)), List.range' i k) := by
  intro k
  induction k with
  | zero =>
    intro fuel i prev hk hcall _ hmatch
    obtain ⟨f, rfl⟩ : ∃ f, fuel = f + 1 := ⟨fuel - 1, by omega⟩
    have h0 := hcall 0 (Nat.le_refl 0)
    simp only [Nat.add_zero] at h0 hmatch ⊢
    simp [handleRoleLoop, h0, if_neg hmatch]
  | succ k ih =>
    intro fuel i prev hk hcall hmm hmatch
    obtain ⟨f, rfl⟩ : ∃ f, fuel = f + 1 := ⟨fuel - 1, by omega⟩
    have h0 := hcall 0 (by omega)
    simp only [Nat.add_zero] at h0
    have hm0 := hmm 0 (by omega)
    simp only [Nat.add_zero] at hm0
    have hrec := ih f (i + 1) (some (c i)) (by omega)
      (fun j hj => by
        have h2 := hcall (j + 1) (by omega)
        rwa [show i + (j + 1) = i + 1 + j from by omega] at h2)
      (fun j hj => by
        have h2 := hmm (j + 1) (by omega)
        rwa [show i + (j + 1) = i + 1 + j from by omega] at h2)
      (by rwa [show i + 1 + k = i + (k + 1) from by omega])
    rw [show i + 1 + k = i + (k + 1) from by omega] at hrec
    simp [handleRoleLoop, h0, if_pos hm0, hrec, List.range'_succ]

/-- If every attempt the fuel admits mismatches, the loop exits with the
credentials of the last attempt and a sleep recorded for every attempt
index. -/
theorem handleRoleLoop_all_mismatch {E : Type} (call : Nat → Except E AssumeRoleCreds)
    (rmatch : String → String → Bool) (ccsRoleID : String) (c : Nat → AssumeRoleCreds) :
    ∀ (f i : Nat) (prev : Option AssumeRoleCreds),
      (∀ j, j ≤ f → call (i + j) = .ok (c (i + j))) →
      (∀ j, j ≤ f → ccsRoleID ≠ "" ∧ rmatch ccsRoleID (c (i + j)).assumedRoleId = false) →
      handleRoleLoop call rmatch ccsRoleID prev i (f + 1) =
        .ok (some (c (i + f)), List.range' i (f + 1)) := by
  intro f
  induction f with
  | zero =>
    intro i prev hcall hmm
    have h0 := hcall 0 (Nat.le_refl 0)
    have hm0 := hmm 0 (Nat.le_refl 0)
    simp only [Nat.add_zero] at h0 hm0 ⊢
    simp [handleRoleLoop, h0, if_pos hm0, List.range'_succ]
  | succ f ih =>
    intro i prev hcall hmm
    have h0 := hcall 0 (by omega)
    have hm0 := hmm 0 (by omega)
    simp only [Nat.add_zero] at h0 hm0
    have hrec := ih (i + 1) (some (c i))
      (fun j hj => by
        have h2 := hcall (j + 1) (by omega)
        rwa [show i + (j + 1) = i + 1 + j from by omega] at h2)
      (fun j hj => by
        have h2 := hmm (j + 1) (by omega)
        rwa [show i + (j + 1) = i + 1 + j from by omega] at h2)
    rw [show i + 1 + f = i + (f + 1) from by omega] at hrec
    conv_lhs => rw [handleRoleLoop]
    simp only [h0, if_pos hm0, hrec]
    simp [List.range'_succ]

/-! ## Claim theorems: credential chain and SDK v2 client -/

/-- Claim C1: for every role ARN, external id and session name,
GetSTSCredentialsV2 issues the assume role call with a 3600 second session
duration and retries up to 100 times with a fixed 500 ms delay on any
error; if some attempt i below 100 succeeds (all earlier ones failing) it
returns the result of that attempt, and if all 100 attempts fail it returns
the error of the last attempt, without panicking. -/
theorem getSTSCredentialsV2_retry_spec {E O : Type}
    (assumeRole : AssumeRoleInputV2 → Nat → Except E O)
    (roleArn externalID roleSessionName : String) :
    (mkAssumeRoleInputV2 roleArn externalID roleSessionName).durationSeconds = 3600 ∧
    (∀ (i : Nat) (o : O), i < 100 →
      (∀ j, j < i →
        ∃ e, assumeRole (mkAssumeRoleInputV2 roleArn externalID roleSessionName) j = .error e) →
      assumeRole (mkAssumeRoleInputV2 roleArn externalID roleSessionName) i = .ok o →
      GetSTSCredentialsV2 assumeRole roleArn externalID roleSessionName =
        (.ok o, List.replicate (i + 1) 500)) ∧
    (∀ errf : Nat → E,
      (∀ i, i < 100 →
        assumeRole (mkAssumeRoleInputV2 roleArn externalID roleSessionName) i = .error (errf i)) →
      GetSTSCredentialsV2 assumeRole roleArn externalID roleSessionName =
        (.error (errf 99), List.replicate 100 500)) := by
  refine ⟨rfl, ?_, ?_⟩
  · intro i o hi herr hok
    unfold GetSTSCredentialsV2
    have h := stsRetryLoop_first_ok
      (assumeRole (mkAssumeRoleInputV2 roleArn externalID roleSessionName)) i 99 0 o
      (by omega) (fun j hj => by simpa using herr j hj) (by simpa using hok)
    simpa using h
  · intro errf hf
    unfold GetSTSCredentialsV2
    have h := stsRetryLoop_all_error
      (assumeRole (mkAssumeRoleInputV2 roleArn externalID roleSessionName)) errf 99 0
      (fun j hj => by simpa using hf j (by omega))
    simpa using h

/-- Witness for C1: a call sequence failing twice then succeeding yields the
attempt 2 result after three 500 ms sleeps; an always failing sequence
yields the last error after one hundred 500 ms sleeps; and the built input
carries the 3600 second duration. -/
theorem getSTSCredentialsV2_retry_spec_witness :
    (mkAssumeRoleInputV2 "arn:aws:iam::123456789012:role/OrganizationAccountAccessRole" ""
      "awsAccountOperator").durationSeconds = 3600 ∧
    GetSTSCredentialsV2 witnessCallSTS "arn" "" "sess" = (.ok 42, List.replicate 3 500) ∧
    GetSTSCredentialsV2 witnessFailSTS "arn" "" "sess" =
      (.error "AccessDenied", List.replicate 100 500) := by
  refine ⟨(getSTSCredentialsV2_retry_spec witnessCallSTS
    "arn:aws:iam::123456789012:role/OrganizationAccountAccessRole" "" "awsAccountOperator").1,
    ?_, ?_⟩
  · exact (getSTSCredentialsV2_retry_spec witnessCallSTS "arn" "" "sess").2.1 2 42 (by omega)
      (fun j hj => ⟨"AccessDenied", by simp [witnessCallSTS, hj]⟩)
      (by simp [witnessCallSTS])
  · exact (getSTSCredentialsV2_retry_spec witnessFailSTS "arn" "" "sess").2.2
      (fun _ => "AccessDenied") (fun i _ => rfl)

/-- Claim C5: in HandleRoleAssumptionV2, when a nonempty ccsRoleID is
expected and the assumed role id of an attempt does not match it, the
builder sleeps for a duration equal to the attempt index (linearly
increasing) and retries the whole assume role call, for up to 10 attempts:
with the first match at attempt k the returned credentials are those of the
fresh attempt k call and the sleep trace is exactly 0, 1, ..., k - 1; with
every attempt mismatching, 10 calls are made, the sleeps are 0 through 9,
and the loop exits with the attempt 9 credentials. -/
theorem handleRoleAssumptionV2_mismatch_backoff {E : Type}
    (call : Nat → Except E AssumeRoleCreds) (rmatch : String → String → Bool)
    (ccsRoleID : String) (c : Nat → AssumeRoleCreds)
    (hcall : ∀ i, i < 10 → call i = .ok (c i)) (hccs : ccsRoleID ≠ "") :
    (∀ k, k < 10 →
      (∀ j, j < k → rmatch ccsRoleID (c j).assumedRoleId = false) →
      rmatch ccsRoleID (c k).assumedRoleId = true →
      HandleRoleAssumptionV2 call rmatch ccsRoleID = .ok (some (c k), List.range k)) ∧
    ((∀ j, j < 10 → rmatch ccsRoleID (c j).assumedRoleId = false) →
      HandleRoleAssumptionV2 call rmatch ccsRoleID = .ok (some (c 9), List.range 10)) := by
  constructor
  · intro k hk hmm hmatch
    unfold HandleRoleAssumptionV2
    have h := handleRoleLoop_first_match call rmatch ccsRoleID c k 10 0 none hk
      (fun j hj => by simpa using hcall j (by omega))
      (fun j hj => ⟨hccs, by simpa using hmm j hj⟩)
      (by simp [hmatch])
    simpa [List.range_eq_range'] using h
  · intro hmm
    unfold HandleRoleAssumptionV2
    have h := handleRoleLoop_all_mismatch call rmatch ccsRoleID c 9 0 none
      (fun j hj => by simpa using hcall j (by omega))
      (fun j hj => ⟨hccs, by simpa using hmm j (by omega)⟩)
    simpa [List.range_eq_range'] using h

/-- Witness for C5: with credentials mismatching on attempts 0 and 1 and
matching on attempt 2, the loop returns the attempt 2 credentials and slept
0 then 1 seconds. -/
theorem handleRoleAssumptionV2_mismatch_backoff_witness :
    HandleRoleAssumptionV2 witnessCallRole witnessRegexMatch witnessCcsRoleID =
      .ok (some (witnessCreds 2), List.range 2) :=
  (handleRoleAssumptionV2_mismatch_backoff witnessCallRole witnessRegexMatch witnessCcsRoleID
    witnessCreds (fun i _ => rfl) (by decide)).1 2 (by omega) (by decide) (by decide)

/-- Claim C10: for every bucket name, the SDK v2 client implementation of
BatchDeleteBucketObjects returns an error (it is unimplemented), so a
teardown path emptying bucket objects through this client always reports
failure. -/
theorem batchDeleteBucketObjects_always_fails (bucketName : Option String) :
    BatchDeleteBucketObjects bucketName =
      .error "BatchDeleteBucketObjects not implemented for AWS SDK v2" := rfl

/-! ## Lemmas about the pool matcher -/

/-- selectBest returns none only on the empty candidate list. -/
theorem selectBest_eq_none (claim : AccountClaim) :
    ∀ l : List Account, selectBest claim l = none → l = [] := by
  intro l h
  cases l with
  | nil => rfl
  | cons a rest =>
    exfalso
    simp only [selectBest] at h
    cases hrest : selectBest claim rest with
    | none => rw [hrest] at h; simp at h
    | some b =>
      rw [hrest] at h
      by_cases hc : claimRank claim b < claimRank claim a <;> simp [hc] at h

/-- The selected account is a member of the candidate list and has minimal
rank among all candidates. -/
theorem selectBest_min (claim : AccountClaim) :
    ∀ (l : List Account) (a : Account), selectBest claim l = some a →
      a ∈ l ∧ ∀ b ∈ l, claimRank claim a ≤ claimRank claim b := by
  intro l
  induction l with
  | nil => intro a h; simp [selectBest] at h
  | cons x rest ih =>
    intro a h
    simp only [selectBest] at h
    cases hrest : selectBest claim rest with
    | none =>
      rw [hrest] at h
      have hx : x = a := by simpa using h
      subst hx
      have hnil := selectBest_eq_none claim rest hrest
      subst hnil
      exact ⟨List.mem_singleton_self x, by
        intro b hb
        have : b = x := by simpa using hb
        subst this
        exact Nat.le_refl _⟩
    | some b0 =>
      rw [hrest] at h
      replace h : (if claimRank claim b0 < claimRank claim x then some b0 else some x) =
        some a := h
      obtain ⟨hmem, hmin⟩ := ih b0 hrest
      by_cases hc : claimRank claim b0 < claimRank claim x
      · rw [if_pos hc] at h
        have hb0 : b0 = a := by simpa using h
        subst hb0
        refine ⟨List.mem_cons_of_mem _ hmem, ?_⟩
        intro b hb
        rcases List.mem_cons.mp hb with hbx | hbr
        · subst hbx; exact Nat.le_of_lt hc
        · exact hmin b hbr
      · rw [if_neg hc] at h
        have hx : x = a := by simpa using h
        subst hx
        refine ⟨List.mem_cons_self _ _, ?_⟩
        intro b hb
        rcases List.mem_cons.mp hb with hbx | hbr
        · subst hbx; exact Nat.le_refl _
        · exact Nat.le_trans (Nat.le_of_not_lt hc) (hmin b hbr)

/-- Soundness of the matcher: a bound account was listed, is a candidate,
and has minimal rank among listed candidates. -/
theorem matchClaim_sound (defaultPool : String) (claim : AccountClaim)
    (accounts : List Account) (a : Account)
    (h : matchClaim defaultPool claim accounts = some a) :
    a ∈ accounts ∧ isCandidate defaultPool claim a ∧
      ∀ b ∈ accounts, isCandidate defaultPool claim b →
        claimRank claim a ≤ claimRank claim b := by
  unfold matchClaim at h
  obtain ⟨hmem, hmin⟩ := selectBest_min claim _ a h
  have hfil := List.mem_filter.mp hmem
  refine ⟨hfil.1, of_decide_eq_true hfil.2, ?_⟩
  intro b hb hcb
  exact hmin b (List.mem_filter.mpr ⟨hb, decide_eq_true hcb⟩)

/-- The rank is at most 1 exactly for reused accounts. -/
theorem claimRank_le_one_iff (claim : AccountClaim) (a : Account) :
    claimRank claim a ≤ 1 ↔ a.status.reused = true := by
  unfold claimRank
  split_ifs with h1 h2
  · simpa using h1.1
  · simpa using h2
  · simp only [show ¬(2 ≤ 1) from by omega, false_iff]
    intro hre
    exact h2 hre

/-- The rank is 0 exactly for reused accounts matching the claim legal
entity. -/
theorem claimRank_eq_zero_iff (claim : AccountClaim) (a : Account) :
    claimRank claim a = 0 ↔
      (a.status.reused = true ∧ a.spec.legalEntity = claim.legalEntity) := by
  unfold claimRank
  split_ifs with h1 h2
  · simp [h1]
  · exact ⟨fun h => absurd h (by decide), fun h => absurd h h1⟩
  · exact ⟨fun h => absurd h (by decide), fun h => absurd h h1⟩

/-! ## Claim theorems: pool matcher -/

/-- Claim C4: for every pending claim and list of accounts, the pool matcher
binds following the tie break order: the bound account is a candidate of
minimal rank; whenever some candidate is Reused with a legal entity matching
the claim, the bound account is too (such accounts outrank all others); and
whenever no such candidate exists but some candidate is Reused, the bound
account is Reused (Reused outranks never claimed). -/
theorem matchClaim_tiebreak (defaultPool : String) (claim : AccountClaim)
    (accounts : List Account) (a : Account)
    (h : matchClaim defaultPool claim accounts = some a) :
    isCandidate defaultPool claim a ∧
    (∀ b ∈ accounts, isCandidate defaultPool claim b →
      claimRank claim a ≤ claimRank claim b) ∧
    ((∃ b ∈ accounts, isCandidate defaultPool claim b ∧ b.status.reused = true ∧
        b.spec.legalEntity = claim.legalEntity) →
      a.status.reused = true ∧ a.spec.legalEntity = claim.legalEntity) ∧
    ((∃ b ∈ accounts, isCandidate defaultPool claim b ∧ b.status.reused = true) →
      a.status.reused = true) := by
  obtain ⟨hmem, hcand, hmin⟩ := matchClaim_sound defaultPool claim accounts a h
  refine ⟨hcand, hmin, ?_, ?_⟩
  · rintro ⟨b, hb, hcb, hre, hle⟩
    have hb0 : claimRank claim b = 0 := (claimRank_eq_zero_iff claim b).mpr ⟨hre, hle⟩
    have ha0 : claimRank claim a = 0 := by
      have := hmin b hb hcb
      omega
    exact (claimRank_eq_zero_iff claim a).mp ha0
  · rintro ⟨b, hb, hcb, hre⟩
    have hb1 : claimRank claim b ≤ 1 := (claimRank_le_one_iff claim b).mpr hre
    have ha1 : claimRank claim a ≤ 1 := by
      have := hmin b hb hcb
      omega
    exact (claimRank_le_one_iff claim a).mp ha1

/-- Witness for C4: with a reused account under legal entity 1 listed first
and a reused account under legal entity 2 listed second, a claim under
legal entity 2 binds the legal entity 2 account (the legal entity isolation
test) and the bound account does not rank worse than the first listed. -/
theorem matchClaim_tiebreak_witness :
    claimRank claimLE2 acctReusedLE2 ≤ claimRank claimLE2 acctReusedLE1 ∧
    acctReusedLE2.status.reused = true ∧
    acctReusedLE2.spec.legalEntity = claimLE2.legalEntity := by
  have h := matchClaim_tiebreak defaultPoolName claimLE2 [acctReusedLE1, acctReusedLE2]
    acctReusedLE2 (by decide)
  exact ⟨h.2.1 acctReusedLE1 (by decide) (by decide), h.2.2.1 ⟨acctReusedLE2, by decide⟩⟩

/-- Counterexample for C3 as stated: the pool matcher binds a default (blank
pool name) claim to an account whose pool name is the (nonempty) default
pool name — exactly what the multiple account pools test expects, and
contrary to the claim that a default claim never binds an account with a
nonempty pool name. -/
theorem matchClaim_blank_binds_named_default_pool :
    blankClaim.accountPool = "" ∧
    acctDefaultNamedPool.spec.accountPool ≠ "" ∧
    matchClaim defaultPoolName blankClaim [acctDefaultNamedPool] = some acctDefaultNamedPool := by
  decide

/-- Claim C3 (amended): a claim requesting a nonempty pool P different from
the configured default pool name binds only accounts whose pool name is
exactly P (never empty, never different); a claim targeting the default
pool — blank pool name, or explicitly naming the default pool — binds only
accounts whose pool name is empty or equal to the default pool name. -/
theorem matchClaim_pool_isolation (defaultPool : String) (claim : AccountClaim)
    (accounts : List Account) (a : Account)
    (h : matchClaim defaultPool claim accounts = some a) :
    (claim.accountPool ≠ "" → claim.accountPool ≠ defaultPool →
      a.spec.accountPool = claim.accountPool) ∧
    ((claim.accountPool = "" ∨ claim.accountPool = defaultPool) →
      (a.spec.accountPool = "" ∨ a.spec.accountPool = defaultPool)) := by
  obtain ⟨_, hcand, _⟩ := matchClaim_sound defaultPool claim accounts a h
  obtain ⟨_, _, hpool⟩ := hcand
  unfold poolNameMatches poolTarget at hpool
  constructor
  · intro hne hnd
    simp only [if_pos hne] at hpool
    rw [if_neg hnd] at hpool
    exact hpool
  · intro htarget
    have htgt : (if claim.accountPool ≠ "" then claim.accountPool else defaultPool) =
        defaultPool := by
      rcases htarget with hblank | hdefault
      · simp [hblank]
      · by_cases hne : claim.accountPool ≠ ""
        · simp [if_pos hne, hdefault]
        · simp [if_neg hne]
    rw [if_pos htgt] at hpool
    exact hpool

/-- Witness for C3 (amended): the blank claim bound to the account carrying
the default pool name lands in the allowed set (empty or the default pool
name). -/
theorem matchClaim_pool_isolation_witness :
    acctDefaultNamedPool.spec.accountPool = "" ∨
      acctDefaultNamedPool.spec.accountPool = defaultPoolName :=
  (matchClaim_pool_isolation defaultPoolName blankClaim [acctDefaultNamedPool]
    acctDefaultNamedPool (by decide)).2 (Or.inl rfl)

/-! ## Claim theorems: claim deletion flow -/

/-- Claim C2: deleting a claim bound to a non BYOC account results in the
account claim link (and claim link namespace) cleared, Claimed false, State
Ready, Reused true, and the claim finalizer dropped (releasing the claim
object) — and this happens only after a teardown attempt with zero category
failures succeeds: with any category failure the claim keeps its finalizer,
the account is untouched, and an error is surfaced. -/
theorem reconcileClaimDeletion_reset_spec (claim : AccountClaim) (acct : Account)
    (teardown : TeardownAttempt) (hbyoc : acct.spec.byoc = false) :
    (teardown.failureCount = 0 →
      (reconcileClaimDeletion claim acct teardown false).claimRemoved = true ∧
      (reconcileClaimDeletion claim acct teardown false).err = none ∧
      (reconcileClaimDeletion claim acct teardown false).account.spec.claimLink = "" ∧
      (reconcileClaimDeletion claim acct teardown false).account.spec.claimLinkNamespace = "" ∧
      (reconcileClaimDeletion claim acct teardown false).account.status.claimed = false ∧
      (reconcileClaimDeletion claim acct teardown false).account.status.state = AccountReadyV2 ∧
      (reconcileClaimDeletion claim acct teardown false).account.status.reused = true ∧
      (reconcileClaimDeletion claim acct teardown false).claim.finalizers =
        claim.finalizers.erase accountClaimFinalizerName) ∧
    (∀ conflict : Bool, teardown.failureCount ≠ 0 →
      (reconcileClaimDeletion claim acct teardown conflict).claimRemoved = false ∧
      (reconcileClaimDeletion claim acct teardown conflict).claim = claim ∧
      (reconcileClaimDeletion claim acct teardown conflict).account = acct ∧
      (reconcileClaimDeletion claim acct teardown conflict).err ≠ none) := by
  constructor
  · intro hclean
    simp [reconcileClaimDeletion, hbyoc, hclean, resetAccountForReuse]
  · intro conflict hfail
    simp [reconcileClaimDeletion, hbyoc, hfail]

/-- Witness for C2: with the deletion test fixture, a clean teardown removes
the claim and resets the account, while a teardown with one failed category
keeps the finalizer and resets nothing. -/
theorem reconcileClaimDeletion_reset_spec_witness :
    (reconcileClaimDeletion claimPendingDeletion acctBoundNonBYOC teardownClean
      false).claimRemoved = true ∧
    (reconcileClaimDeletion claimPendingDeletion acctBoundNonBYOC teardownClean
      false).account.status.reused = true ∧
    (reconcileClaimDeletion claimPendingDeletion acctBoundNonBYOC teardownOneFailure
      false).claimRemoved = false ∧
    (reconcileClaimDeletion claimPendingDeletion acctBoundNonBYOC teardownOneFailure
      false).account = acctBoundNonBYOC := by
  have h1 := reconcileClaimDeletion_reset_spec claimPendingDeletion acctBoundNonBYOC
    teardownClean rfl
  have h2 := reconcileClaimDeletion_reset_spec claimPendingDeletion acctBoundNonBYOC
    teardownOneFailure rfl
  have hc1 := h1.1 (by decide)
  have hc2 := h2.2 false (by decide)
  exact ⟨hc1.1, hc1.2.2.2.2.2.2.1, hc2.1, hc2.2.2.1⟩

/-- Claim C9: a conflict (stale resource version) on the account reset
update during claim deletion is not fatal: the claim keeps its finalizer,
no partial state is left (stored claim and account are unchanged), an error
is surfaced so the reconciliation is requeued, and the retried
reconciliation without a conflict converges to the expected end state. -/
theorem reconcileClaimDeletion_conflict_retry (claim : AccountClaim) (acct : Account)
    (teardown : TeardownAttempt) (hbyoc : acct.spec.byoc = false)
    (hclean : teardown.failureCount = 0) :
    (reconcileClaimDeletion claim acct teardown true).err ≠ none ∧
    (reconcileClaimDeletion claim acct teardown true).claimRemoved = false ∧
    (reconcileClaimDeletion claim acct teardown true).claim = claim ∧
    (reconcileClaimDeletion claim acct teardown true).account = acct ∧
    (reconcileClaimDeletion (reconcileClaimDeletion claim acct teardown true).claim
      (reconcileClaimDeletion claim acct teardown true).account teardown
      false).claimRemoved = true ∧
    (reconcileClaimDeletion (reconcileClaimDeletion claim acct teardown true).claim
      (reconcileClaimDeletion claim acct teardown true).account teardown false).err = none ∧
    (reconcileClaimDeletion (reconcileClaimDeletion claim acct teardown true).claim
      (reconcileClaimDeletion claim acct teardown true).account teardown false).account =
      resetAccountForReuse acct := by
  simp [reconcileClaimDeletion, hbyoc, hclean]

/-- Witness for C9: the deletion test fixture under a conflicting first
update keeps the finalizer and converges on the conflict free retry. -/
theorem reconcileClaimDeletion_conflict_retry_witness :
    (reconcileClaimDeletion claimPendingDeletion acctBoundNonBYOC teardownClean
      true).claimRemoved = false ∧
    (reconcileClaimDeletion
      (reconcileClaimDeletion claimPendingDeletion acctBoundNonBYOC teardownClean true).claim
      (reconcileClaimDeletion claimPendingDeletion acctBoundNonBYOC teardownClean true).account
      teardownClean false).account = resetAccountForReuse acctBoundNonBYOC := by
  have h := reconcileClaimDeletion_conflict_retry claimPendingDeletion acctBoundNonBYOC
    teardownClean rfl (by decide)
  exact ⟨h.2.1, h.2.2.2.2.2.2⟩

/-! ## Claim theorems: account reconciler -/

/-- Claim C6 (code bug): reconciling a non BYOC account stuck in Creating
past the wait threshold does NOT transition it to Failed with reason
CreationTimeout. setAccountFailedV2 forwards (state, ctype, message) into
SetAccountStatus, whose signature (account, message, ctype, state) is fixed
by the other call sites, so the status state becomes the human readable
timeout message instead of Failed, and the CreationTimeout reason — dropped
by setAccountFailedV2 — is recorded nowhere in the status. -/
theorem reconcileAccountV2_creationTimeout_bug :
    (reconcileAccountV2 envTimeoutProbe acctCreatingOld).account.status.state =
      creationTimeoutMessage ∧
    (reconcileAccountV2 envTimeoutProbe acctCreatingOld).account.status.state ≠
      AccountFailedV2 ∧
    (reconcileAccountV2 envTimeoutProbe acctCreatingOld).outcome =
      .errored creationTimeoutMessage ∧
    (reconcileAccountV2 envTimeoutProbe acctCreatingOld).account.status.conditions =
      [⟨"AccountCreationFailed", creationTimeoutMessage, AccountFailedV2⟩] := by
  decide

/-- Counterexample for C7 as stated: a Failed account (not pending deletion)
missing the account finalizer is NOT left unchanged by reconciliation — the
finalizer addition at the top of Reconcile runs before the Failed skip and
mutates the account. -/
theorem reconcileAccountV2_failed_not_unchanged :
    acctFailedNoFinalizer.status.state = AccountFailedV2 ∧
    acctFailedNoFinalizer.deletionTimestampSet = false ∧
    (reconcileAccountV2 envAllOk acctFailedNoFinalizer).account ≠ acctFailedNoFinalizer ∧
    (reconcileAccountV2 envAllOk acctFailedNoFinalizer).account.finalizers =
      [accountFinalizerName] := by
  decide

/-- Claim C7 (amended): for every Failed account not pending deletion (with
config map fetch, operator client build, and the finalizer update
succeeding), reconciliation performs no provider call and no state
transition: spec and status are unchanged, and the only mutation is
ensuring the account finalizer is present (added through a control plane
update when missing on a non manual STS account). -/
theorem reconcileAccountV2_failed_skip (env : ReconcileEnv) (acct : Account)
    (hcm : env.configMapOk = true) (hsc : env.setupClientOk = true)
    (hup : env.updateOk = true)
    (hfail : acct.status.state = AccountFailedV2)
    (hdel : acct.deletionTimestampSet = false) :
    (reconcileAccountV2 env acct).outcome = .done ∧
    (reconcileAccountV2 env acct).providerCalls = [] ∧
    (reconcileAccountV2 env acct).account.status = acct.status ∧
    (reconcileAccountV2 env acct).account.spec = acct.spec ∧
    (reconcileAccountV2 env acct).account.finalizers =
      (if acct.spec.manualSTSMode = true ∨ accountFinalizerName ∈ acct.finalizers
       then acct.finalizers else acct.finalizers ++ [accountFinalizerName]) := by
  by_cases hsts : acct.spec.manualSTSMode = true
  · simp [reconcileAccountV2, addFinalizerStep, hcm, hsc, hup, hsts, hfail, hdel,
      Account.IsPendingDeletion, Account.IsFailed]
  · have hsts2 : acct.spec.manualSTSMode = false := by
      cases hb : acct.spec.manualSTSMode
      · rfl
      · exact absurd hb hsts
    by_cases hmem : accountFinalizerName ∈ acct.finalizers
    · simp [reconcileAccountV2, addFinalizerStep, hcm, hsc, hup, hsts2, hmem, hfail, hdel,
        Account.IsPendingDeletion, Account.IsFailed]
    · simp [reconcileAccountV2, addFinalizerStep, hcm, hsc, hup, hsts2, hmem, hfail, hdel,
        Account.IsPendingDeletion, Account.IsFailed]

/-- Witness for C7 (amended): the Failed fixture without a finalizer is
skipped with no provider calls. -/
theorem reconcileAccountV2_failed_skip_witness :
    (reconcileAccountV2 envAllOk acctFailedNoFinalizer).outcome = .done ∧
    (reconcileAccountV2 envAllOk acctFailedNoFinalizer).providerCalls = [] := by
  have h := reconcileAccountV2_failed_skip envAllOk acctFailedNoFinalizer rfl rfl rfl rfl rfl
  exact ⟨h.1, h.2.1⟩

/-- Counterexample for C8 as stated: with the account creation budget
exhausted but the fedramp configuration set, the reconciler does NOT
requeue — it bypasses the budget gate and requests net new account creation
from the provider. -/
theorem reconcileAccountV2_fedramp_bypasses_budget :
    envFedrampNoBudget.accountsCanBeCreated = false ∧
    (reconcileAccountV2 envFedrampNoBudget acctBlankUnclaimed).providerCalls =
      ["CreateAccount", "TagResource"] ∧
    (reconcileAccountV2 envFedrampNoBudget acctBlankUnclaimed).outcome ≠
      .requeueAfterMinutes 5 := by
  decide

/-- Claim C8 (amended): for every unclaimed non BYOC account with no state
and no AWS account id, when the account creation budget does not allow
creation and the deployment is not fedramp, reconciliation requeues after
the five minute cooldown without any provider call (in particular without
requesting account creation). -/
theorem reconcileAccountV2_budget_requeue (env : ReconcileEnv) (acct : Account)
    (hcm : env.configMapOk = true) (hsc : env.setupClientOk = true)
    (hup : env.updateOk = true)
    (hdel : acct.deletionTimestampSet = false) (hbyoc : acct.spec.byoc = false)
    (hstate : acct.status.state = "") (hcl : acct.status.claimed = false)
    (hid : acct.spec.awsAccountID = "")
    (hbudget : env.accountsCanBeCreated = false) (hfed : env.fedramp = false) :
    (reconcileAccountV2 env acct).outcome = .requeueAfterMinutes 5 ∧
    (reconcileAccountV2 env acct).providerCalls = [] := by
  by_cases hsts : acct.spec.manualSTSMode = true
  · simp [reconcileAccountV2, addFinalizerStep, hcm, hsc, hup, hsts, hdel, hbyoc, hstate,
      hcl, hid, hbudget, hfed, Account.IsPendingDeletion, Account.IsFailed,
      Account.IsInitializingRegions, Account.IsBYOC, Account.IsPendingVerification,
      Account.IsReadyUnclaimedAndHasClaimLink, Account.IsCreating,
      Account.IsUnclaimedAndHasNoState, Account.HasState, Account.IsClaimed,
      Account.HasAwsAccountID, AccountFailedV2, AccountInitializingRegionsV2,
      AccountPendingVerificationV2, AccountReadyV2, AccountCreatingV2]
  · have hsts2 : acct.spec.manualSTSMode = false := by
      cases hb : acct.spec.manualSTSMode
      · rfl
      · exact absurd hb hsts
    by_cases hmem : accountFinalizerName ∈ acct.finalizers
    · simp [reconcileAccountV2, addFinalizerStep, hcm, hsc, hup, hsts2, hmem, hdel, hbyoc,
        hstate, hcl, hid, hbudget, hfed, Account.IsPendingDeletion, Account.IsFailed,
        Account.IsInitializingRegions, Account.IsBYOC, Account.IsPendingVerification,
        Account.IsReadyUnclaimedAndHasClaimLink, Account.IsCreating,
        Account.IsUnclaimedAndHasNoState, Account.HasState, Account.IsClaimed,
        Account.HasAwsAccountID, AccountFailedV2, AccountInitializingRegionsV2,
        AccountPendingVerificationV2, AccountReadyV2, AccountCreatingV2]
    · simp [reconcileAccountV2, addFinalizerStep, hcm, hsc, hup, hsts2, hmem, hdel, hbyoc,
        hstate, hcl, hid, hbudget, hfed, Account.IsPendingDeletion, Account.IsFailed,
        Account.IsInitializingRegions, Account.IsBYOC, Account.IsPendingVerification,
        Account.IsReadyUnclaimedAndHasClaimLink, Account.IsCreating,
        Account.IsUnclaimedAndHasNoState, Account.HasState, Account.IsClaimed,
        Account.HasAwsAccountID, AccountFailedV2, AccountInitializingRegionsV2,
        AccountPendingVerificationV2, AccountReadyV2, AccountCreatingV2]

/-- Witness for C8 (amended): the blank unclaimed fixture on a non fedramp
deployment with the budget exhausted requeues after five minutes with no
provider call. -/
theorem reconcileAccountV2_budget_requeue_witness :
    (reconcileAccountV2 envNoBudget acctBlankUnclaimed).outcome = .requeueAfterMinutes 5 ∧
    (reconcileAccountV2 envNoBudget acctBlankUnclaimed).providerCalls = [] :=
  reconcileAccountV2_budget_requeue envNoBudget acctBlankUnclaimed rfl rfl rfl rfl rfl rfl
    rfl rfl rfl rfl
